import Mathlib

/-!
Verification of the update-dispatch core of a Telegram bot library
(middleware pipeline, update router, handler registries, command sub-router).

The embedding models effects observably: a computation is a `Run`, the list
of observable events it emitted together with an `Outcome` (normal return or
a thrown exception).  Sequencing two computations (`seqR`) matches JS
`await a; await b`: if `a` throws, `b` never runs and the error propagates.

Middleware stages are embedded as data (`Stage`): a list of actions run
before the call to the continuation, a flag saying whether the stage calls
its continuation (`next`), and a list of actions run after the continuation
returns.  The source (UpdateHandler.runMiddleware) drives the chain with a
single dispatch closure over an incrementing index; for stages that invoke
the continuation at most once, which is the only class this development
quantifies over, that is exactly the nested-closure chain `runMiddleware`
defined here.
-/

/-- Observable events emitted during dispatch. -/
inductive Ev where
  | tag (n : Nat)
  | handlerCalled (n : Nat)
  | handlerErrorLogged (n : Nat)
  | processErrorLogged (n : Nat)
  deriving DecidableEq, Repr

/-- Result of a computation: normal return or a thrown error. -/
inductive Outcome where
  | ok
  | err (n : Nat)
  deriving DecidableEq, Repr

/-- A finished computation: the trace of events it emitted and its outcome. -/
structure Run where
  trace : List Ev
  outcome : Outcome
  deriving DecidableEq, Repr

/-- Sequencing, matching JS `await a; await b`: if `a` throws, `b` is
skipped and the error propagates. -/
def seqR (a b : Run) : Run :=
  match a.outcome with
  | Outcome.ok => ⟨a.trace ++ b.trace, b.outcome⟩
  | Outcome.err _ => a

/-- An atomic piece of stage logic: emit an observable event, or throw. -/
inductive Act where
  | emit (n : Nat)
  | fail (n : Nat)
  deriving DecidableEq, Repr

/-- Run a list of actions in order; a `fail` aborts the rest. -/
def runActs : List Act → Run
  | [] => ⟨[], Outcome.ok⟩
  | Act.emit n :: rest => seqR ⟨[Ev.tag n], Outcome.ok⟩ (runActs rest)
  | Act.fail n :: _ => ⟨[], Outcome.err n⟩

/-- Events of the emit actions of a list (its trace when none fail). -/
def emitTrace (l : List Act) : List Ev :=
  l.filterMap fun a => match a with
    | Act.emit n => some (Ev.tag n)
    | Act.fail _ => none

/-- True when a list of actions contains no throw. -/
def actsOk (l : List Act) : Bool :=
  l.all fun a => match a with
    | Act.emit _ => true
    | Act.fail _ => false

/-- A middleware stage: logic before the continuation call, whether the
continuation is called (source: `await next()`), and logic after it. -/
structure Stage where
  before : List Act
  callNext : Bool
  after : List Act
  deriving DecidableEq, Repr

/-- True when none of the stage's own logic throws. -/
def stageOk (s : Stage) : Bool :=
  actsOk s.before && actsOk s.after

/-- Execute one stage around a continuation, mirroring the stage body
`before; if callNext then await next(); after`. -/
def runStage (s : Stage) (next : Run) : Run :=
  seqR (runActs s.before)
    (seqR (if s.callNext then next else ⟨[], Outcome.ok⟩) (runActs s.after))

/-- The middleware chain of UpdateHandler.runMiddleware: stage 0 is invoked
with a continuation that invokes stage 1, and so on; past the last stage the
terminal action runs. -/
def runMiddleware : List Stage → Run → Run
  | [], next => next
  | s :: rest, next => runStage s (runMiddleware rest next)

/-- A registered per-kind handler, identified by a tag; `fails` says whether
invoking it throws. -/
structure Handler where
  tag : Nat
  fails : Bool
  deriving DecidableEq, Repr

/-- Invoking one handler: it is called, and either returns or throws. -/
def runHandler (h : Handler) : Run :=
  if h.fails then ⟨[Ev.handlerCalled h.tag], Outcome.err h.tag⟩
  else ⟨[Ev.handlerCalled h.tag], Outcome.ok⟩

/-- Observable trace of one handler invocation under the registry's
try/catch policy: the call, then the logged error if it failed. -/
def handlerTrace (h : Handler) : List Ev :=
  Ev.handlerCalled h.tag :: (if h.fails then [Ev.handlerErrorLogged h.tag] else [])

/-- UpdateHandler.runHandlers: each handler is awaited inside try/catch; an
error is logged (console.error) and the loop continues with the rest. -/
def runHandlers : List Handler → Run
  | [] => ⟨[], Outcome.ok⟩
  | h :: rest =>
      let r := runHandler h
      match r.outcome with
      | Outcome.ok => seqR r (runHandlers rest)
      | Outcome.err n => seqR ⟨r.trace ++ [Ev.handlerErrorLogged n], Outcome.ok⟩ (runHandlers rest)

/-- Message payload (the fields the dispatch core inspects). -/
structure Message where
  chat_id : Int := 0
  text : Option String := none
  deriving DecidableEq, Repr

/-- Telegram Update: at most one payload per kind field; the router checks
field presence (`if (update.message)` etc.), so presence is what matters.
Non-message payloads are reduced to an opaque Nat. -/
structure Update where
  update_id : Nat := 0
  message : Option Message := none
  edited_message : Option Message := none
  channel_post : Option Message := none
  edited_channel_post : Option Message := none
  business_connection : Option Nat := none
  business_message : Option Message := none
  edited_business_message : Option Message := none
  business_messages_deleted : Option Nat := none
  message_reaction : Option Nat := none
  message_reaction_count : Option Nat := none
  inline_query : Option Nat := none
  chosen_inline_result : Option Nat := none
  callback_query : Option Nat := none
  shipping_query : Option Nat := none
  pre_checkout_query : Option Nat := none
  poll : Option Nat := none
  poll_answer : Option Nat := none
  my_chat_member : Option Nat := none
  chat_member : Option Nat := none
  chat_join_request : Option Nat := none
  chat_boost : Option Nat := none
  removed_chat_boost : Option Nat := none
  deriving DecidableEq, Repr

/-- UpdateHandlerConfig: per-kind-family enable toggles, all default true.
There is no toggle for regular messages. -/
structure UpdateHandlerConfig where
  handleEditedMessages : Bool := true
  handleChannelPosts : Bool := true
  handleInlineQueries : Bool := true
  handleCallbackQueries : Bool := true
  handleShippingQueries : Bool := true
  handlePreCheckoutQueries : Bool := true
  handlePolls : Bool := true
  handlePollAnswers : Bool := true
  handleChatMemberUpdates : Bool := true
  handleChatJoinRequests : Bool := true
  handleChatBoosts : Bool := true
  handleBusinessConnections : Bool := true
  handleBusinessMessages : Bool := true
  handleMessageReactions : Bool := true
  deriving DecidableEq, Repr

/-- A configuration with every toggle disabled. -/
def offConfig : UpdateHandlerConfig :=
  { handleEditedMessages := false
    handleChannelPosts := false
    handleInlineQueries := false
    handleCallbackQueries := false
    handleShippingQueries := false
    handlePreCheckoutQueries := false
    handlePolls := false
    handlePollAnswers := false
    handleChatMemberUpdates := false
    handleChatJoinRequests := false
    handleChatBoosts := false
    handleBusinessConnections := false
    handleBusinessMessages := false
    handleMessageReactions := false }

/-- UpdateHandler: the registered middleware, the 23 per-kind handler
registries in declaration order, and the config. -/
structure UpdateHandler where
  middleware : List Stage := []
  messageHandlers : List Handler := []
  editedMessageHandlers : List Handler := []
  channelPostHandlers : List Handler := []
  editedChannelPostHandlers : List Handler := []
  businessConnectionHandlers : List Handler := []
  businessMessageHandlers : List Handler := []
  editedBusinessMessageHandlers : List Handler := []
  businessMessagesDeletedHandlers : List Handler := []
  messageReactionHandlers : List Handler := []
  messageReactionCountHandlers : List Handler := []
  inlineQueryHandlers : List Handler := []
  chosenInlineResultHandlers : List Handler := []
  callbackQueryHandlers : List Handler := []
  shippingQueryHandlers : List Handler := []
  preCheckoutQueryHandlers : List Handler := []
  pollHandlers : List Handler := []
  pollAnswerHandlers : List Handler := []
  myChatMemberHandlers : List Handler := []
  chatMemberHandlers : List Handler := []
  chatJoinRequestHandlers : List Handler := []
  chatBoostHandlers : List Handler := []
  removedChatBoostHandlers : List Handler := []
  config : UpdateHandlerConfig := {}
  deriving DecidableEq, Repr

/-- The update kinds, one per kind-indicating field, in the declaration
order of the checks in UpdateHandler.routeUpdate. -/
inductive UKind where
  | message
  | editedMessage
  | channelPost
  | editedChannelPost
  | businessConnection
  | businessMessage
  | editedBusinessMessage
  | businessMessagesDeleted
  | messageReaction
  | messageReactionCount
  | inlineQuery
  | chosenInlineResult
  | callbackQuery
  | shippingQuery
  | preCheckoutQuery
  | poll
  | pollAnswer
  | myChatMember
  | chatMember
  | chatJoinRequest
  | chatBoost
  | removedChatBoost
  deriving DecidableEq, Repr

/-- Whether the kind-indicating field for a kind is present on the update. -/
def present (u : Update) : UKind → Bool
  | UKind.message => u.message.isSome
  | UKind.editedMessage => u.edited_message.isSome
  | UKind.channelPost => u.channel_post.isSome
  | UKind.editedChannelPost => u.edited_channel_post.isSome
  | UKind.businessConnection => u.business_connection.isSome
  | UKind.businessMessage => u.business_message.isSome
  | UKind.editedBusinessMessage => u.edited_business_message.isSome
  | UKind.businessMessagesDeleted => u.business_messages_deleted.isSome
  | UKind.messageReaction => u.message_reaction.isSome
  | UKind.messageReactionCount => u.message_reaction_count.isSome
  | UKind.inlineQuery => u.inline_query.isSome
  | UKind.chosenInlineResult => u.chosen_inline_result.isSome
  | UKind.callbackQuery => u.callback_query.isSome
  | UKind.shippingQuery => u.shipping_query.isSome
  | UKind.preCheckoutQuery => u.pre_checkout_query.isSome
  | UKind.poll => u.poll.isSome
  | UKind.pollAnswer => u.poll_answer.isSome
  | UKind.myChatMember => u.my_chat_member.isSome
  | UKind.chatMember => u.chat_member.isSome
  | UKind.chatJoinRequest => u.chat_join_request.isSome
  | UKind.chatBoost => u.chat_boost.isSome
  | UKind.removedChatBoost => u.removed_chat_boost.isSome

/-- The governing toggle for each kind, as used by routeUpdate's guards.
Regular messages have no toggle: their guard is field presence alone. -/
def enabled (cfg : UpdateHandlerConfig) : UKind → Bool
  | UKind.message => true
  | UKind.editedMessage => cfg.handleEditedMessages
  | UKind.channelPost => cfg.handleChannelPosts
  | UKind.editedChannelPost => cfg.handleChannelPosts
  | UKind.businessConnection => cfg.handleBusinessConnections
  | UKind.businessMessage => cfg.handleBusinessMessages
  | UKind.editedBusinessMessage => cfg.handleBusinessMessages
  | UKind.businessMessagesDeleted => cfg.handleBusinessMessages
  | UKind.messageReaction => cfg.handleMessageReactions
  | UKind.messageReactionCount => cfg.handleMessageReactions
  | UKind.inlineQuery => cfg.handleInlineQueries
  | UKind.chosenInlineResult => cfg.handleInlineQueries
  | UKind.callbackQuery => cfg.handleCallbackQueries
  | UKind.shippingQuery => cfg.handleShippingQueries
  | UKind.preCheckoutQuery => cfg.handlePreCheckoutQueries
  | UKind.poll => cfg.handlePolls
  | UKind.pollAnswer => cfg.handlePollAnswers
  | UKind.myChatMember => cfg.handleChatMemberUpdates
  | UKind.chatMember => cfg.handleChatMemberUpdates
  | UKind.chatJoinRequest => cfg.handleChatJoinRequests
  | UKind.chatBoost => cfg.handleChatBoosts
  | UKind.removedChatBoost => cfg.handleChatBoosts

/-- The handler registry of a kind. -/
def registryOf (uh : UpdateHandler) : UKind → List Handler
  | UKind.message => uh.messageHandlers
  | UKind.editedMessage => uh.editedMessageHandlers
  | UKind.channelPost => uh.channelPostHandlers
  | UKind.editedChannelPost => uh.editedChannelPostHandlers
  | UKind.businessConnection => uh.businessConnectionHandlers
  | UKind.businessMessage => uh.businessMessageHandlers
  | UKind.editedBusinessMessage => uh.editedBusinessMessageHandlers
  | UKind.businessMessagesDeleted => uh.businessMessagesDeletedHandlers
  | UKind.messageReaction => uh.messageReactionHandlers
  | UKind.messageReactionCount => uh.messageReactionCountHandlers
  | UKind.inlineQuery => uh.inlineQueryHandlers
  | UKind.chosenInlineResult => uh.chosenInlineResultHandlers
  | UKind.callbackQuery => uh.callbackQueryHandlers
  | UKind.shippingQuery => uh.shippingQueryHandlers
  | UKind.preCheckoutQuery => uh.preCheckoutQueryHandlers
  | UKind.poll => uh.pollHandlers
  | UKind.pollAnswer => uh.pollAnswerHandlers
  | UKind.myChatMember => uh.myChatMemberHandlers
  | UKind.chatMember => uh.chatMemberHandlers
  | UKind.chatJoinRequest => uh.chatJoinRequestHandlers
  | UKind.chatBoost => uh.chatBoostHandlers
  | UKind.removedChatBoost => uh.removedChatBoostHandlers

/-- The fixed declaration order of the kind checks in routeUpdate. -/
def kindOrder : List UKind :=
  [UKind.message, UKind.editedMessage, UKind.channelPost, UKind.editedChannelPost,
   UKind.businessConnection, UKind.businessMessage, UKind.editedBusinessMessage,
   UKind.businessMessagesDeleted, UKind.messageReaction, UKind.messageReactionCount,
   UKind.inlineQuery, UKind.chosenInlineResult, UKind.callbackQuery, UKind.shippingQuery,
   UKind.preCheckoutQuery, UKind.poll, UKind.pollAnswer, UKind.myChatMember,
   UKind.chatMember, UKind.chatJoinRequest, UKind.chatBoost, UKind.removedChatBoost]

/-- Run the guarded blocks for a list of kinds in order; the declarative
counterpart of routeUpdate (used to state the refinement theorem). -/
def runKinds (uh : UpdateHandler) (u : Update) : List UKind → Run
  | [] => ⟨[], Outcome.ok⟩
  | k :: ks =>
      seqR (if present u k && enabled uh.config k then runHandlers (registryOf uh k)
            else ⟨[], Outcome.ok⟩)
        (runKinds uh u ks)

/-- UpdateHandler.routeUpdate, transcribed guard by guard from the source:
22 independent checks in declaration order, each `field present AND toggle
enabled` (the message check is presence only). -/
def routeUpdate (uh : UpdateHandler) (u : Update) : Run :=
  seqR (if u.message.isSome then runHandlers uh.messageHandlers else ⟨[], Outcome.ok⟩) <|
  seqR (if u.edited_message.isSome && uh.config.handleEditedMessages then runHandlers uh.editedMessageHandlers else ⟨[], Outcome.ok⟩) <|
  seqR (if u.channel_post.isSome && uh.config.handleChannelPosts then runHandlers uh.channelPostHandlers else ⟨[], Outcome.ok⟩) <|
  seqR (if u.edited_channel_post.isSome && uh.config.handleChannelPosts then runHandlers uh.editedChannelPostHandlers else ⟨[], Outcome.ok⟩) <|
  seqR (if u.business_connection.isSome && uh.config.handleBusinessConnections then runHandlers uh.businessConnectionHandlers else ⟨[], Outcome.ok⟩) <|
  seqR (if u.business_message.isSome && uh.config.handleBusinessMessages then runHandlers uh.businessMessageHandlers else ⟨[], Outcome.ok⟩) <|
  seqR (if u.edited_business_message.isSome && uh.config.handleBusinessMessages then runHandlers uh.editedBusinessMessageHandlers else ⟨[], Outcome.ok⟩) <|
  seqR (if u.business_messages_deleted.isSome && uh.config.handleBusinessMessages then runHandlers uh.businessMessagesDeletedHandlers else ⟨[], Outcome.ok⟩) <|
  seqR (if u.message_reaction.isSome && uh.config.handleMessageReactions then runHandlers uh.messageReactionHandlers else ⟨[], Outcome.ok⟩) <|
  seqR (if u.message_reaction_count.isSome && uh.config.handleMessageReactions then runHandlers uh.messageReactionCountHandlers else ⟨[], Outcome.ok⟩) <|
  seqR (if u.inline_query.isSome && uh.config.handleInlineQueries then runHandlers uh.inlineQueryHandlers else ⟨[], Outcome.ok⟩) <|
  seqR (if u.chosen_inline_result.isSome && uh.config.handleInlineQueries then runHandlers uh.chosenInlineResultHandlers else ⟨[], Outcome.ok⟩) <|
  seqR (if u.callback_query.isSome && uh.config.handleCallbackQueries then runHandlers uh.callbackQueryHandlers else ⟨[], Outcome.ok⟩) <|
  seqR (if u.shipping_query.isSome && uh.config.handleShippingQueries then runHandlers uh.shippingQueryHandlers else ⟨[], Outcome.ok⟩) <|
  seqR (if u.pre_checkout_query.isSome && uh.config.handlePreCheckoutQueries then runHandlers uh.preCheckoutQueryHandlers else ⟨[], Outcome.ok⟩) <|
  seqR (if u.poll.isSome && uh.config.handlePolls then runHandlers uh.pollHandlers else ⟨[], Outcome.ok⟩) <|
  seqR (if u.poll_answer.isSome && uh.config.handlePollAnswers then runHandlers uh.pollAnswerHandlers else ⟨[], Outcome.ok⟩) <|
  seqR (if u.my_chat_member.isSome && uh.config.handleChatMemberUpdates then runHandlers uh.myChatMemberHandlers else ⟨[], Outcome.ok⟩) <|
  seqR (if u.chat_member.isSome && uh.config.handleChatMemberUpdates then runHandlers uh.chatMemberHandlers else ⟨[], Outcome.ok⟩) <|
  seqR (if u.chat_join_request.isSome && uh.config.handleChatJoinRequests then runHandlers uh.chatJoinRequestHandlers else ⟨[], Outcome.ok⟩) <|
  seqR (if u.chat_boost.isSome && uh.config.handleChatBoosts then runHandlers uh.chatBoostHandlers else ⟨[], Outcome.ok⟩) <|
  seqR (if u.removed_chat_boost.isSome && uh.config.handleChatBoosts then runHandlers uh.removedChatBoostHandlers else ⟨[], Outcome.ok⟩)
  ⟨[], Outcome.ok⟩

/-- The catch block of processUpdate: on an error, log it (console.error)
and rethrow; otherwise pass the result through. -/
def logRethrow (r : Run) : Run :=
  match r.outcome with
  | Outcome.ok => r
  | Outcome.err n => ⟨r.trace ++ [Ev.processErrorLogged n], Outcome.err n⟩

/-- UpdateHandler.processUpdate: run the middleware chain around the
routing terminal action; a propagating error is logged (console.error)
and rethrown. -/
def processUpdate (uh : UpdateHandler) (u : Update) : Run :=
  logRethrow (runMiddleware uh.middleware (routeUpdate uh u))

/-- UpdateContext: the per-update context passed through middleware; the
open string-keyed extension is modelled by the three fields the command
parser populates. -/
structure Ctx where
  update : Update
  command : Option String := none
  args : Option (List String) := none
  botUsername : Option String := none
  deriving DecidableEq, Repr

/-- Split a character list at every character satisfying the predicate,
keeping empty pieces, exactly like JS String.prototype.split with a
single-character separator ("a  b".split(" ") is ["a", "", "b"], and
"".split(" ") is [""]). -/
def splitByList (p : Char → Bool) : List Char → List (List Char)
  | [] => [[]]
  | c :: rest =>
      let r := splitByList p rest
      if p c then [] :: r
      else (c :: r.headD []) :: r.tail

/-- JS text.split(sep) for a one-character separator. -/
def splitChar (sep : Char) (t : String) : List String :=
  (splitByList (fun c => c == sep) t.data).map String.mk

/-- JS text.startsWith("/"): the first character is the command marker. -/
def hasCommandMarker (t : String) : Bool :=
  match t.data with
  | [] => false
  | c :: _ => c == '/'

/-- JS parts[0].substring(1): drop the leading marker character. -/
def dropMarker (s : String) : String :=
  String.mk s.data.tail

/-- commandParser middleware (its context transformation): for
`message || business_message` whose text starts with "/", split the text on
the space character, strip the leading "/" from the first token, split that
token on "@" into command name and optional bot username, and store
command, args and botUsername on the context.  The middleware then always
calls next with this context. -/
def commandParser (ctx : Ctx) : Ctx :=
  let message := match ctx.update.message with
    | some m => some m
    | none => ctx.update.business_message
  match message with
  | some msg =>
    match msg.text with
    | some text =>
      if hasCommandMarker text then
        let parts := splitChar ' ' text
        let commandPart := dropMarker (parts.headD "")
        let pieces := splitChar '@' commandPart
        { ctx with
          command := some (pieces.headD "")
          args := some parts.tail
          botUsername := pieces[1]? }
      else ctx
    | none => ctx
  | none => ctx

/-- CommandConfig from middleware/commands: name, optional description,
handler (a tag here), aliases, optional arity bounds, case-insensitivity. -/
structure CommandConfig where
  command : String
  description : Option String := none
  handlerTag : Nat := 0
  aliases : List String := []
  minArgs : Option Nat := none
  maxArgs : Option Nat := none
  ignoreCase : Bool := false
  deriving DecidableEq, Repr

/-- JS Map.set on an insertion-ordered association list: overwrite in place
when the key exists, otherwise append. -/
def mapSet (m : List (String × CommandConfig)) (key : String) (v : CommandConfig) :
    List (String × CommandConfig) :=
  if m.any fun p => p.1 == key then
    m.map fun p => if p.1 == key then (key, v) else p
  else m ++ [(key, v)]

/-- JS Map.get: the value stored at a key, if any. -/
def mapGet (m : List (String × CommandConfig)) (key : String) : Option CommandConfig :=
  (m.find? fun p => p.1 == key).map Prod.snd

/-- CommandRouter state: the command map (insertion-ordered), the optional
default and unknown-command handlers (tags), and the help command name. -/
structure CommandRouter where
  commandMap : List (String × CommandConfig) := []
  defaultHandler : Option Nat := none
  unknownCommandHandler : Option Nat := none
  helpCommand : String := "help"
  deriving DecidableEq, Repr

/-- CommandRouter.command: register a command under its (possibly
lowercased) name, then each alias under the same config. -/
def CommandRouter.command (r : CommandRouter) (config : CommandConfig) : CommandRouter :=
  let commandName := if config.ignoreCase then config.command.toLower else config.command
  let m0 := mapSet r.commandMap commandName config
  let m1 := config.aliases.foldl
    (fun acc a => mapSet acc (if config.ignoreCase then a.toLower else a) config) m0
  { r with commandMap := m1 }

/-- CommandRouter.generateHelp: map the command-map values (one per
registered name) with a truthy description to "/<command> - <description>"
lines, join with newlines, and fall back to a fixed string when the joined
text is empty.  JS truthiness makes an empty-string description count as
absent. -/
def CommandRouter.generateHelp (r : CommandRouter) : String :=
  let lines := ((r.commandMap.map Prod.snd).filter fun c => decide (c.description.getD "" ≠ "")).map
    fun c => "/" ++ c.command ++ " - " ++ c.description.getD ""
  let text := String.intercalate "\n" lines
  if text = "" then "No commands available." else text

/-- The source's minArgs guard
`commandConfig.minArgs && (!ctx.args || ctx.args.length < commandConfig.minArgs)`:
JS truthiness means a declared minArgs of 0 (or an absent one) disables the
check. -/
def minViolated (cc : CommandConfig) (args : Option (List String)) : Bool :=
  decide (cc.minArgs.getD 0 ≠ 0) && (args.isNone || decide ((args.getD []).length < cc.minArgs.getD 0))

/-- The source's maxArgs guard
`commandConfig.maxArgs && ctx.args && ctx.args.length > commandConfig.maxArgs`:
a declared maxArgs of 0 (or an absent one) disables the check. -/
def maxViolated (cc : CommandConfig) (args : Option (List String)) : Bool :=
  decide (cc.maxArgs.getD 0 ≠ 0) && (args.isSome && decide (cc.maxArgs.getD 0 < (args.getD []).length))

/-- Actions a run of the command-router middleware can perform, in order:
send a message, invoke the matched command's handler (with the parsed
command, args and bot username), invoke the default or unknown handler, or
call the outer middleware continuation. -/
inductive CRAction where
  | sent (chatId : Int) (text : String)
  | invoked (tag : Nat) (command : String) (args : Option (List String)) (botUsername : Option String)
  | invokedDefault (tag : Nat)
  | invokedUnknown (tag : Nat)
  | calledNext
  deriving DecidableEq, Repr

/-- Usage-violation reply for a minArgs violation. -/
def usageMinText (cmd : String) (cc : CommandConfig) : String :=
  "Command /" ++ cmd ++ " requires at least " ++ toString (cc.minArgs.getD 0) ++ " arguments."

/-- Usage-violation reply for a maxArgs violation. -/
def usageMaxText (cmd : String) (cc : CommandConfig) : String :=
  "Command /" ++ cmd ++ " accepts at most " ++ toString (cc.maxArgs.getD 0) ++ " arguments."

/-- Default unknown-command reply. -/
def unknownText (r : CommandRouter) (cmd : String) : String :=
  "Unknown command: /" ++ cmd ++ ". Type /" ++ r.helpCommand ++ " for available commands."

/-- The reply the router sends for a given update: the sendMessage call is
guarded by `if (ctx.update.message)`, so nothing is sent otherwise. -/
def replyTo (mo : Option Message) (text : String) : List CRAction :=
  match mo with
  | some m => [CRAction.sent m.chat_id text]
  | none => []

/-- CommandRouter.middleware, transcribed branch by branch from the source:
no (truthy) command -> default handler or next; help command -> send
generated help; known command -> arity guards then handler; unknown
command -> unknown handler or default reply.  Every reply is guarded by the
presence of `ctx.update.message`. -/
def CommandRouter.middleware (r : CommandRouter) (ctx : Ctx) : List CRAction :=
  if ctx.command.getD "" = "" then
    match r.defaultHandler with
    | some d => [CRAction.invokedDefault d]
    | none => [CRAction.calledNext]
  else
    let cmd := ctx.command.getD ""
    if cmd = r.helpCommand then
      replyTo ctx.update.message r.generateHelp
    else
      match mapGet r.commandMap cmd with
      | some cc =>
        if minViolated cc ctx.args then
          replyTo ctx.update.message (usageMinText cmd cc)
        else if maxViolated cc ctx.args then
          replyTo ctx.update.message (usageMaxText cmd cc)
        else
          [CRAction.invoked cc.handlerTag cmd ctx.args ctx.botUsername]
      | none =>
        match r.unknownCommandHandler with
        | some uk => [CRAction.invokedUnknown uk]
        | none => replyTo ctx.update.message (unknownText r cmd)

/-- True when a list of router actions contains no sent message. -/
def noSends (l : List CRAction) : Bool :=
  l.all fun a => match a with
    | CRAction.sent _ _ => false
    | _ => true

/-- Rendering of claim C8 as stated, with the split-on-whitespace reading
taken from the spec's words (space, tab, newline, carriage return); the
code itself splits on the space character only. -/
def specWhitespaceSplit (t : String) : List String :=
  (splitByList (fun c => c == ' ' || c == '\t' || c == '\n' || c == '\r') t.data).map String.mk

/-- Claim C8 as stated: for every message text starting with "/", the
parsed command, args and bot username come from whitespace-splitting. -/
def specSplitClaim : Prop :=
  ∀ (u : Update) (m : Message) (t : String),
    u.message = some m → m.text = some t → hasCommandMarker t = true →
    (commandParser ⟨u, none, none, none⟩).command
        = some ((splitChar '@' (dropMarker ((specWhitespaceSplit t).headD ""))).headD "")
    ∧ (commandParser ⟨u, none, none, none⟩).args = some (specWhitespaceSplit t).tail

/-- Concrete inputs used by the witness theorems below. -/
def c1uh : UpdateHandler :=
  { middleware := [⟨[Act.emit 1], true, [Act.emit 2]⟩, ⟨[Act.emit 3], true, [Act.emit 4]⟩,
      ⟨[Act.emit 5], true, [Act.emit 6]⟩],
    messageHandlers := [⟨9, false⟩] }

def c1u : Update := { message := some {} }

def c2uh : UpdateHandler :=
  { middleware := [⟨[Act.emit 1], true, [Act.emit 2]⟩],
    messageHandlers := [⟨1, false⟩, ⟨2, true⟩, ⟨3, false⟩] }

def c2u : Update := { message := some {} }

def c3uh : UpdateHandler :=
  { middleware := [⟨[Act.emit 1], true, [Act.emit 2]⟩, ⟨[Act.emit 3, Act.fail 8], true, [Act.emit 4]⟩,
      ⟨[Act.emit 5], true, [Act.emit 6]⟩],
    messageHandlers := [⟨9, false⟩] }

def c3u : Update := { message := some {} }

def c3auh : UpdateHandler :=
  { middleware := [⟨[Act.emit 1], true, [Act.emit 2]⟩, ⟨[Act.emit 3], true, [Act.emit 4, Act.fail 8]⟩,
      ⟨[Act.emit 5], true, [Act.emit 6]⟩],
    messageHandlers := [⟨9, false⟩] }

def c3cuh : UpdateHandler :=
  { middleware := [⟨[Act.emit 1], true, [Act.emit 2]⟩, ⟨[Act.emit 3], false, [Act.emit 4, Act.fail 8]⟩,
      ⟨[Act.emit 5], true, [Act.emit 6]⟩],
    messageHandlers := [⟨9, false⟩] }

def c4uh : UpdateHandler :=
  { inlineQueryHandlers := [⟨4, false⟩], config := { handleInlineQueries := false } }

def c4u : Update := { inline_query := some 1 }

def c5uh : UpdateHandler :=
  { middleware := [⟨[Act.emit 1], true, [Act.emit 2]⟩, ⟨[Act.emit 3], false, [Act.emit 4]⟩,
      ⟨[Act.emit 5], true, [Act.emit 6]⟩],
    messageHandlers := [⟨9, false⟩] }

def c5u : Update := { message := some {} }

def c6cr : CommandRouter :=
  CommandRouter.command {} { command := "c", handlerTag := 7, maxArgs := some 0 }

def c6cctx : Ctx :=
  { update := { message := some { chat_id := 5, text := some "/c a" } },
    command := some "c", args := some ["a"] }

def c6wcfg : CommandConfig := { command := "go", handlerTag := 3, minArgs := some 2 }

def c6wr : CommandRouter := CommandRouter.command {} c6wcfg

def c6wctx : Ctx :=
  { update := { message := some { chat_id := 5, text := some "/go a" } },
    command := some "go", args := some ["a"] }

def c7cr : CommandRouter :=
  CommandRouter.command {} { command := "ping", description := some "d", handlerTag := 1, aliases := ["p"] }

def c7wr : CommandRouter :=
  CommandRouter.command
    (CommandRouter.command {} { command := "start", description := some "Start the bot", handlerTag := 1 })
    { command := "debug", handlerTag := 2 }

def c7wctx : Ctx :=
  { update := { message := some { chat_id := 5, text := some "/help" } },
    command := some "help", args := some [] }

def c8cm : Message := { chat_id := 0, text := some "/cmd\targ" }

def c8cu : Update := { message := some c8cm }

def c8wctx : Ctx :=
  { update := { message := some { chat_id := 5, text := some "/start@mybot one two" } } }

def c9uh : UpdateHandler :=
  { messageHandlers := [⟨4, false⟩], pollHandlers := [⟨5, false⟩] }

def c9u : Update := { message := some {}, poll := some 2 }

def c10wcfg : CommandConfig := { command := "hi", handlerTag := 2 }

def c10wr : CommandRouter := CommandRouter.command {} c10wcfg

def c10wctx : Ctx :=
  { update := { business_message := some { chat_id := 7, text := some "/nope" } },
    command := some "nope", args := some [] }

def c10wctx2 : Ctx :=
  { update := { business_message := some { chat_id := 7, text := some "/hi" } },
    command := some "hi", args := some [] }

def c10bu : Update := { business_message := some { chat_id := 7, text := some "/nope" } }

theorem seqR_ok (t : List Ev) (b : Run) : seqR ⟨t, Outcome.ok⟩ b = ⟨t ++ b.trace, b.outcome⟩ := rfl

theorem seqR_err (t : List Ev) (n : Nat) (b : Run) :
    seqR ⟨t, Outcome.err n⟩ b = ⟨t, Outcome.err n⟩ := rfl

theorem runActs_ok : ∀ l : List Act, actsOk l = true → runActs l = ⟨emitTrace l, Outcome.ok⟩ := by
  intro l hl
  induction l with
  | nil => rfl
  | cons a rest ih =>
    cases a with
    | emit n =>
      have hrest : actsOk rest = true := by
        simpa [actsOk] using hl
      simp [runActs, ih hrest, seqR_ok, emitTrace]
    | fail n =>
      simp [actsOk] at hl

theorem runActs_failAt : ∀ (em : List Act) (n : Nat) (rest : List Act), actsOk em = true →
    runActs (em ++ Act.fail n :: rest) = ⟨emitTrace em, Outcome.err n⟩ := by
  intro em n rest hem
  induction em with
  | nil => rfl
  | cons a em' ih =>
    cases a with
    | emit m =>
      have h' : actsOk em' = true := by simpa [actsOk] using hem
      simp [runActs, ih h', seqR_ok, emitTrace]
    | fail m =>
      simp [actsOk] at hem

theorem stageOk_before {s : Stage} (h : stageOk s = true) : actsOk s.before = true := by
  simp [stageOk, Bool.and_eq_true] at h
  exact h.1

theorem stageOk_after {s : Stage} (h : stageOk s = true) : actsOk s.after = true := by
  simp [stageOk, Bool.and_eq_true] at h
  exact h.2

theorem runStage_proceed (s : Stage) (next : Run) (hs : stageOk s = true)
    (hc : s.callNext = true) (hn : next.outcome = Outcome.ok) :
    runStage s next = ⟨emitTrace s.before ++ next.trace ++ emitTrace s.after, Outcome.ok⟩ := by
  obtain ⟨nt, no⟩ := next
  simp only at hn
  subst hn
  simp [runStage, hc, runActs_ok _ (stageOk_before hs), runActs_ok _ (stageOk_after hs),
    seqR_ok, List.append_assoc]

theorem runStage_proceed_err (s : Stage) (next : Run) (hs : stageOk s = true)
    (hc : s.callNext = true) {n : Nat} (hn : next.outcome = Outcome.err n) :
    runStage s next = ⟨emitTrace s.before ++ next.trace, Outcome.err n⟩ := by
  obtain ⟨nt, no⟩ := next
  simp only at hn
  subst hn
  simp [runStage, hc, runActs_ok _ (stageOk_before hs), runActs_ok _ (stageOk_after hs),
    seqR_ok, seqR_err]

theorem runStage_stop (s : Stage) (next : Run) (hs : stageOk s = true)
    (hc : s.callNext = false) :
    runStage s next = ⟨emitTrace s.before ++ emitTrace s.after, Outcome.ok⟩ := by
  simp [runStage, hc, runActs_ok _ (stageOk_before hs), runActs_ok _ (stageOk_after hs), seqR_ok]

theorem runMiddleware_proceed : ∀ (stages : List Stage) (t : Run),
    (stages.all fun s => stageOk s && s.callNext) = true → t.outcome = Outcome.ok →
    runMiddleware stages t =
      ⟨(stages.flatMap fun s => emitTrace s.before) ++ t.trace
          ++ (stages.reverse.flatMap fun s => emitTrace s.after), Outcome.ok⟩ := by
  intro stages t hall ht
  induction stages with
  | nil =>
    obtain ⟨tt, tout⟩ := t
    simp only at ht
    subst ht
    simp [runMiddleware]
  | cons s rest ih =>
    rw [List.all_cons, Bool.and_eq_true, Bool.and_eq_true] at hall
    obtain ⟨⟨hok, hcall⟩, hrest⟩ := hall
    have hinner := ih hrest
    rw [runMiddleware, hinner, runStage_proceed s _ hok hcall (by rfl)]
    simp [List.append_assoc]

theorem runMiddleware_failBefore :
    ∀ (pre : List Stage) (s : Stage) (post : List Stage) (t : Run) (em : List Act) (n : Nat)
      (rest : List Act),
    (pre.all fun x => stageOk x && x.callNext) = true →
    s.before = em ++ Act.fail n :: rest → actsOk em = true →
    runMiddleware (pre ++ s :: post) t =
      ⟨(pre.flatMap fun x => emitTrace x.before) ++ emitTrace em, Outcome.err n⟩ := by
  intro pre s post t em n rest hall hb hem
  induction pre with
  | nil =>
    simp only [List.nil_append, runMiddleware, runStage, hb, runActs_failAt em n rest hem, seqR_err]
    simp
  | cons x pre' ih =>
    rw [List.all_cons, Bool.and_eq_true, Bool.and_eq_true] at hall
    obtain ⟨⟨hok, hcall⟩, hrest⟩ := hall
    have hinner := ih hrest
    rw [List.cons_append, runMiddleware, hinner,
      runStage_proceed_err x _ hok hcall (by rfl)]
    simp [List.append_assoc]

theorem runMiddleware_stop :
    ∀ (pre : List Stage) (b : Stage) (post : List Stage) (t : Run),
    (pre.all fun x => stageOk x && x.callNext) = true →
    stageOk b = true → b.callNext = false →
    runMiddleware (pre ++ b :: post) t =
      ⟨(pre.flatMap fun x => emitTrace x.before) ++ emitTrace b.before ++ emitTrace b.after
          ++ (pre.reverse.flatMap fun x => emitTrace x.after), Outcome.ok⟩ := by
  intro pre b post t hall hok hstop
  induction pre with
  | nil =>
    simp [runMiddleware, runStage_stop b _ hok hstop, List.append_assoc]
  | cons x pre' ih =>
    rw [List.all_cons, Bool.and_eq_true, Bool.and_eq_true] at hall
    obtain ⟨⟨hxok, hxcall⟩, hrest⟩ := hall
    have hinner := ih hrest
    rw [List.cons_append, runMiddleware, hinner, runStage_proceed x _ hxok hxcall (by rfl)]
    simp [List.append_assoc]

theorem runStage_failAfter (s : Stage) (next : Run) (hb : actsOk s.before = true)
    (hc : s.callNext = true) (hn : next.outcome = Outcome.ok)
    {em : List Act} {n : Nat} {rest : List Act} (ha : s.after = em ++ Act.fail n :: rest)
    (hem : actsOk em = true) :
    runStage s next = ⟨emitTrace s.before ++ next.trace ++ emitTrace em, Outcome.err n⟩ := by
  obtain ⟨nt, no⟩ := next
  simp only at hn
  subst hn
  simp [runStage, hc, runActs_ok _ hb, ha, runActs_failAt em n rest hem, seqR_ok,
    List.append_assoc]

theorem runStage_stopFailAfter (s : Stage) (next : Run) (hb : actsOk s.before = true)
    (hc : s.callNext = false)
    {em : List Act} {n : Nat} {rest : List Act} (ha : s.after = em ++ Act.fail n :: rest)
    (hem : actsOk em = true) :
    runStage s next = ⟨emitTrace s.before ++ emitTrace em, Outcome.err n⟩ := by
  simp [runStage, hc, runActs_ok _ hb, ha, runActs_failAt em n rest hem, seqR_ok]

theorem runMiddleware_err_extend :
    ∀ (pre chain : List Stage) (t : Run) (T : List Ev) (n : Nat),
    (pre.all fun x => stageOk x && x.callNext) = true →
    runMiddleware chain t = ⟨T, Outcome.err n⟩ →
    runMiddleware (pre ++ chain) t =
      ⟨(pre.flatMap fun x => emitTrace x.before) ++ T, Outcome.err n⟩ := by
  intro pre chain t T n hall hchain
  induction pre with
  | nil => simpa using hchain
  | cons x pre' ih =>
    rw [List.all_cons, Bool.and_eq_true, Bool.and_eq_true] at hall
    obtain ⟨⟨hok, hcall⟩, hrest⟩ := hall
    rw [List.cons_append, runMiddleware, ih hrest, runStage_proceed_err x _ hok hcall (by rfl)]
    simp [List.append_assoc]

theorem runStage_okOutcome (s : Stage) (next : Run) (hs : stageOk s = true)
    (hn : next.outcome = Outcome.ok) : (runStage s next).outcome = Outcome.ok := by
  cases hc : s.callNext with
  | true => rw [runStage_proceed s next hs hc hn]
  | false => rw [runStage_stop s next hs hc]

theorem runMiddleware_okOutcome : ∀ (stages : List Stage) (t : Run),
    (stages.all stageOk) = true → t.outcome = Outcome.ok →
    (runMiddleware stages t).outcome = Outcome.ok := by
  intro stages t hall ht
  induction stages with
  | nil => exact ht
  | cons s rest ih =>
    rw [List.all_cons, Bool.and_eq_true] at hall
    exact runStage_okOutcome s _ hall.1 (ih hall.2)

theorem runHandlers_eq : ∀ hs : List Handler,
    runHandlers hs = ⟨hs.flatMap handlerTrace, Outcome.ok⟩ := by
  intro hs
  induction hs with
  | nil => rfl
  | cons h rest ih =>
    cases hf : h.fails with
    | true =>
      simp [runHandlers, runHandler, hf, ih, seqR_ok, handlerTrace]
    | false =>
      simp [runHandlers, runHandler, hf, ih, seqR_ok, handlerTrace]

theorem runKinds_eq (uh : UpdateHandler) (u : Update) : ∀ ks : List UKind,
    runKinds uh u ks =
      ⟨(ks.filter fun k => present u k && enabled uh.config k).flatMap
         fun k => (registryOf uh k).flatMap handlerTrace, Outcome.ok⟩ := by
  intro ks
  induction ks with
  | nil => rfl
  | cons k ks' ih =>
    cases hg : present u k && enabled uh.config k with
    | true =>
      rw [runKinds, ih, hg]
      simp [runHandlers_eq, seqR_ok, List.filter_cons, hg]
    | false =>
      rw [runKinds, ih, hg]
      simp [seqR_ok, List.filter_cons, hg]

theorem routeUpdate_eq_runKinds (uh : UpdateHandler) (u : Update) :
    routeUpdate uh u = runKinds uh u kindOrder := by
  simp only [routeUpdate, kindOrder, runKinds, present, enabled, registryOf, Bool.and_true]

theorem routeUpdate_eq (uh : UpdateHandler) (u : Update) :
    routeUpdate uh u =
      ⟨(kindOrder.filter fun k => present u k && enabled uh.config k).flatMap
         fun k => (registryOf uh k).flatMap handlerTrace, Outcome.ok⟩ := by
  rw [routeUpdate_eq_runKinds, runKinds_eq]

theorem routeUpdate_okOutcome (uh : UpdateHandler) (u : Update) :
    (routeUpdate uh u).outcome = Outcome.ok := by
  rw [routeUpdate_eq]

theorem logRethrow_ok {r : Run} (h : r.outcome = Outcome.ok) : logRethrow r = r := by
  obtain ⟨t, o⟩ := r
  simp only at h
  subst h
  rfl

/-- C1: for middleware stages registered in order A, B, C, ..., each of
which runs only non-throwing logic and calls its continuation exactly once,
processUpdate emits every stage's before-proceed logic in registration
order, then the terminal classify-and-dispatch action's trace (routeUpdate),
then every stage's after-proceed logic in reverse registration order. -/
theorem middleware_onion_order (uh : UpdateHandler) (u : Update)
    (h : (uh.middleware.all fun s => stageOk s && s.callNext) = true) :
    processUpdate uh u =
      ⟨(uh.middleware.flatMap fun s => emitTrace s.before) ++ (routeUpdate uh u).trace
          ++ (uh.middleware.reverse.flatMap fun s => emitTrace s.after), Outcome.ok⟩ := by
  show logRethrow _ = _
  rw [runMiddleware_proceed uh.middleware (routeUpdate uh u) h (routeUpdate_okOutcome uh u)]
  rfl

theorem middleware_onion_order_witness :
    processUpdate c1uh c1u =
      ⟨[Ev.tag 1, Ev.tag 3, Ev.tag 5, Ev.handlerCalled 9, Ev.tag 6, Ev.tag 4, Ev.tag 2],
        Outcome.ok⟩ :=
  (middleware_onion_order c1uh c1u (by decide)).trans (by decide)

/-- C2: handler failures are isolated: running a registry invokes every
handler once, in registration order, logging each failure and always
finishing normally; the routed trace covers every matching kind registry
regardless of failures; and with non-throwing middleware, processUpdate
finishes normally, so a handler exception never propagates to its caller. -/
theorem handler_failure_isolated :
    (∀ hs : List Handler, runHandlers hs = ⟨hs.flatMap handlerTrace, Outcome.ok⟩)
    ∧ (∀ (uh : UpdateHandler) (u : Update),
        (routeUpdate uh u).trace =
          (kindOrder.filter fun k => present u k && enabled uh.config k).flatMap
            fun k => (registryOf uh k).flatMap handlerTrace)
    ∧ (∀ (uh : UpdateHandler) (u : Update), (uh.middleware.all stageOk) = true →
        (processUpdate uh u).outcome = Outcome.ok) := by
  refine ⟨runHandlers_eq, fun uh u => by rw [routeUpdate_eq], fun uh u hmw => ?_⟩
  have hok := runMiddleware_okOutcome uh.middleware (routeUpdate uh u) hmw
    (routeUpdate_okOutcome uh u)
  show (logRethrow _).outcome = Outcome.ok
  rw [logRethrow_ok hok]
  exact hok

theorem handler_failure_isolated_witness :
    runHandlers [⟨1, false⟩, ⟨2, true⟩, ⟨3, false⟩] =
      ⟨[Ev.handlerCalled 1, Ev.handlerCalled 2, Ev.handlerErrorLogged 2, Ev.handlerCalled 3],
        Outcome.ok⟩
    ∧ (processUpdate c2uh c2u).outcome = Outcome.ok :=
  ⟨(handler_failure_isolated.1 [⟨1, false⟩, ⟨2, true⟩, ⟨3, false⟩]).trans (by decide),
   handler_failure_isolated.2.2 c2uh c2u (by decide)⟩

/-- C3: when a stage's own logic throws -- outside the continuation,
whether before the continuation call, after the continuation returns, or
after a skipped continuation -- the error propagates out of processUpdate
(logged once by its catch block and rethrown), and the trace ends at the
throwing point: nothing runs past it.  In the first case no later stage,
terminal routing action or handler contributes anything; in the other two,
whatever the continuation covered ran before the throw, and nothing (in
particular no earlier stage's after logic) runs after it. -/
theorem middleware_error_propagates :
    (∀ (uh : UpdateHandler) (u : Update) (pre : List Stage) (s : Stage) (post : List Stage)
        (em : List Act) (n : Nat) (rest : List Act),
      uh.middleware = pre ++ s :: post →
      (pre.all fun x => stageOk x && x.callNext) = true →
      s.before = em ++ Act.fail n :: rest → actsOk em = true →
      processUpdate uh u =
        ⟨(pre.flatMap fun x => emitTrace x.before) ++ emitTrace em
            ++ [Ev.processErrorLogged n], Outcome.err n⟩)
    ∧ (∀ (uh : UpdateHandler) (u : Update) (pre : List Stage) (s : Stage) (post : List Stage)
        (em : List Act) (n : Nat) (rest : List Act),
      uh.middleware = pre ++ s :: post →
      (pre.all fun x => stageOk x && x.callNext) = true →
      actsOk s.before = true → s.callNext = true →
      s.after = em ++ Act.fail n :: rest → actsOk em = true →
      (post.all fun x => stageOk x && x.callNext) = true →
      processUpdate uh u =
        ⟨(pre.flatMap fun x => emitTrace x.before) ++ emitTrace s.before
            ++ (post.flatMap fun x => emitTrace x.before) ++ (routeUpdate uh u).trace
            ++ (post.reverse.flatMap fun x => emitTrace x.after) ++ emitTrace em
            ++ [Ev.processErrorLogged n], Outcome.err n⟩)
    ∧ (∀ (uh : UpdateHandler) (u : Update) (pre : List Stage) (s : Stage) (post : List Stage)
        (em : List Act) (n : Nat) (rest : List Act),
      uh.middleware = pre ++ s :: post →
      (pre.all fun x => stageOk x && x.callNext) = true →
      actsOk s.before = true → s.callNext = false →
      s.after = em ++ Act.fail n :: rest → actsOk em = true →
      processUpdate uh u =
        ⟨(pre.flatMap fun x => emitTrace x.before) ++ emitTrace s.before ++ emitTrace em
            ++ [Ev.processErrorLogged n], Outcome.err n⟩) := by
  refine ⟨fun uh u pre s post em n rest hmw hpre hb hem => ?_,
    fun uh u pre s post em n rest hmw hpre hb hcall ha hem hpost => ?_,
    fun uh u pre s post em n rest hmw hpre hb hcall ha hem => ?_⟩
  · show logRethrow _ = _
    rw [hmw, runMiddleware_failBefore pre s post _ em n rest hpre hb hem]
    simp [logRethrow, List.append_assoc]
  · have hinner := runMiddleware_proceed post (routeUpdate uh u) hpost
      (routeUpdate_okOutcome uh u)
    have hhead : runMiddleware (s :: post) (routeUpdate uh u) =
        ⟨emitTrace s.before ++ ((post.flatMap fun x => emitTrace x.before)
            ++ (routeUpdate uh u).trace ++ (post.reverse.flatMap fun x => emitTrace x.after))
          ++ emitTrace em, Outcome.err n⟩ := by
      rw [runMiddleware, hinner, runStage_failAfter s _ hb hcall (by rfl) ha hem]
    show logRethrow _ = _
    rw [hmw, runMiddleware_err_extend pre (s :: post) _ _ n hpre hhead]
    simp [logRethrow, List.append_assoc]
  · have hhead : runMiddleware (s :: post) (routeUpdate uh u) =
        ⟨emitTrace s.before ++ emitTrace em, Outcome.err n⟩ := by
      rw [runMiddleware, runStage_stopFailAfter s _ hb hcall ha hem]
    show logRethrow _ = _
    rw [hmw, runMiddleware_err_extend pre (s :: post) _ _ n hpre hhead]
    simp [logRethrow, List.append_assoc]

theorem middleware_error_propagates_witness :
    processUpdate c3uh c3u = ⟨[Ev.tag 1, Ev.tag 3, Ev.processErrorLogged 8], Outcome.err 8⟩
    ∧ processUpdate c3auh c3u =
        ⟨[Ev.tag 1, Ev.tag 3, Ev.tag 5, Ev.handlerCalled 9, Ev.tag 6, Ev.tag 4,
          Ev.processErrorLogged 8], Outcome.err 8⟩
    ∧ processUpdate c3cuh c3u =
        ⟨[Ev.tag 1, Ev.tag 3, Ev.tag 4, Ev.processErrorLogged 8], Outcome.err 8⟩ :=
  ⟨(middleware_error_propagates.1 c3uh c3u [⟨[Act.emit 1], true, [Act.emit 2]⟩]
      ⟨[Act.emit 3, Act.fail 8], true, [Act.emit 4]⟩ [⟨[Act.emit 5], true, [Act.emit 6]⟩]
      [Act.emit 3] 8 [] rfl (by decide) rfl (by decide)).trans (by decide),
   (middleware_error_propagates.2.1 c3auh c3u [⟨[Act.emit 1], true, [Act.emit 2]⟩]
      ⟨[Act.emit 3], true, [Act.emit 4, Act.fail 8]⟩ [⟨[Act.emit 5], true, [Act.emit 6]⟩]
      [Act.emit 4] 8 [] rfl (by decide) (by decide) rfl rfl (by decide) (by decide)).trans
      (by decide),
   (middleware_error_propagates.2.2 c3cuh c3u [⟨[Act.emit 1], true, [Act.emit 2]⟩]
      ⟨[Act.emit 3], false, [Act.emit 4, Act.fail 8]⟩ [⟨[Act.emit 5], true, [Act.emit 6]⟩]
      [Act.emit 4] 8 [] rfl (by decide) (by decide) rfl rfl (by decide)).trans (by decide)⟩

/-- C5: if stage B never calls its continuation, every later stage and the
terminal routing action (hence every handler) are skipped, while the
preceding stages' before logic has run and their after logic still runs, in
reverse order, after B returns. -/
theorem middleware_short_circuit (uh : UpdateHandler) (u : Update)
    (pre : List Stage) (b : Stage) (post : List Stage)
    (hmw : uh.middleware = pre ++ b :: post)
    (hpre : (pre.all fun x => stageOk x && x.callNext) = true)
    (hb : stageOk b = true) (hbc : b.callNext = false) :
    processUpdate uh u =
      ⟨(pre.flatMap fun x => emitTrace x.before) ++ emitTrace b.before ++ emitTrace b.after
          ++ (pre.reverse.flatMap fun x => emitTrace x.after), Outcome.ok⟩ := by
  show logRethrow _ = _
  rw [hmw, runMiddleware_stop pre b post _ hpre hb hbc]
  simp [logRethrow, List.append_assoc]

theorem middleware_short_circuit_witness :
    processUpdate c5uh c5u = ⟨[Ev.tag 1, Ev.tag 3, Ev.tag 4, Ev.tag 2], Outcome.ok⟩ :=
  (middleware_short_circuit c5uh c5u [⟨[Act.emit 1], true, [Act.emit 2]⟩]
      ⟨[Act.emit 3], false, [Act.emit 4]⟩ [⟨[Act.emit 5], true, [Act.emit 6]⟩]
      rfl (by decide) (by decide) (by decide)).trans (by decide)

/-- C4: routeUpdate tests every kind field independently: its run equals,
in trace and outcome, the concatenation over the fixed declaration order of
the registries of exactly those kinds whose field is present and whose
governing toggle is enabled; and when no check matches, nothing runs and no
error is raised. -/
theorem routeUpdate_independent_kind_dispatch (uh : UpdateHandler) (u : Update) :
    routeUpdate uh u =
      ⟨(kindOrder.filter fun k => present u k && enabled uh.config k).flatMap
         fun k => (registryOf uh k).flatMap handlerTrace, Outcome.ok⟩
    ∧ ((kindOrder.all fun k => !(present u k && enabled uh.config k)) = true →
        routeUpdate uh u = ⟨[], Outcome.ok⟩) := by
  refine ⟨routeUpdate_eq uh u, fun hnone => ?_⟩
  rw [routeUpdate_eq]
  have hfil : (kindOrder.filter fun k => present u k && enabled uh.config k) = [] := by
    rw [List.filter_eq_nil_iff]
    intro a ha
    have h2 := List.all_eq_true.mp hnone a ha
    simp only [Bool.not_eq_true'] at h2
    simp [h2]
  rw [hfil]
  rfl

theorem routeUpdate_independent_kind_dispatch_witness :
    routeUpdate c4uh c4u = ⟨[], Outcome.ok⟩ :=
  (routeUpdate_independent_kind_dispatch c4uh c4u).2 (by decide)

/-- C9: the message registry runs whenever the message field is present, at
the head of the routed trace, under every configuration: unlike every other
kind, the message check has no governing toggle (its guard is constantly
enabled), while each other kind is disabled by the all-off configuration. -/
theorem message_kind_untoggleable :
    (∀ (uh : UpdateHandler) (u : Update), u.message.isSome = true →
      (routeUpdate uh u).trace.take (uh.messageHandlers.flatMap handlerTrace).length
        = uh.messageHandlers.flatMap handlerTrace)
    ∧ (∀ cfg : UpdateHandlerConfig, enabled cfg UKind.message = true)
    ∧ (∀ k : UKind, k ≠ UKind.message → enabled offConfig k = false) := by
  refine ⟨fun uh u hm => ?_, fun cfg => rfl, fun k hk => ?_⟩
  · rw [routeUpdate_eq]
    have h1 : (List.filter (fun k => present u k && enabled uh.config k) kindOrder)
        = UKind.message
            :: List.filter (fun k => present u k && enabled uh.config k) kindOrder.tail := by
      conv_lhs => rw [show kindOrder = UKind.message :: kindOrder.tail from rfl]
      rw [List.filter_cons]
      simp [present, enabled, hm]
    rw [h1]
    simp only [List.flatMap_cons, registryOf]
    exact List.take_left _ _
  · cases k with
    | message => exact absurd rfl hk
    | editedMessage => rfl
    | channelPost => rfl
    | editedChannelPost => rfl
    | businessConnection => rfl
    | businessMessage => rfl
    | editedBusinessMessage => rfl
    | businessMessagesDeleted => rfl
    | messageReaction => rfl
    | messageReactionCount => rfl
    | inlineQuery => rfl
    | chosenInlineResult => rfl
    | callbackQuery => rfl
    | shippingQuery => rfl
    | preCheckoutQuery => rfl
    | poll => rfl
    | pollAnswer => rfl
    | myChatMember => rfl
    | chatMember => rfl
    | chatJoinRequest => rfl
    | chatBoost => rfl
    | removedChatBoost => rfl

theorem message_kind_untoggleable_witness :
    (routeUpdate c9uh c9u).trace.take (c9uh.messageHandlers.flatMap handlerTrace).length
        = c9uh.messageHandlers.flatMap handlerTrace
    ∧ enabled offConfig UKind.chatBoost = false :=
  ⟨message_kind_untoggleable.1 c9uh c9u (by decide),
   message_kind_untoggleable.2.2 UKind.chatBoost (by decide)⟩

/-- C6 counterexample: the command "c" is registered with a declared
maximum of 0 arguments, the update carries a message, and the invocation
supplies one argument, violating the declared maximum; yet the middleware
invokes the handler and sends no usage-violation reply, because the JS
truthiness guard ignores a declared bound of 0. -/
theorem command_arity_zero_bound_counterexample :
    (mapGet c6cr.commandMap "c").map CommandConfig.maxArgs = some (some 0)
    ∧ c6cctx.args = some ["a"]
    ∧ c6cctx.update.message.isSome = true
    ∧ CommandRouter.middleware c6cr c6cctx = [CRAction.invoked 7 "c" (some ["a"]) none]
    ∧ noSends (CommandRouter.middleware c6cr c6cctx) = true := by
  refine ⟨by decide, by decide, by decide, by decide, by decide⟩

/-- C6 amended: for a matched command, a declared bound is enforced only
when it is nonzero (JS truthiness treats a declared 0 as undeclared); on a
violation of an enforced bound the router replies with a usage message
naming the command and the bound, provided the update's message field is
present (nothing is sent otherwise), and stops without invoking the
handler; within the enforced bounds it invokes the handler with the parsed
command name, argument list and bot-username suffix, and stops. -/
theorem command_arity_enforcement (r : CommandRouter) (ctx : Ctx) (cmd : String)
    (cc : CommandConfig)
    (hc : ctx.command = some cmd) (hne : cmd ≠ "") (hh : cmd ≠ r.helpCommand)
    (hfind : mapGet r.commandMap cmd = some cc) :
    (minViolated cc ctx.args = true →
      r.middleware ctx = replyTo ctx.update.message (usageMinText cmd cc))
    ∧ (minViolated cc ctx.args = false → maxViolated cc ctx.args = true →
      r.middleware ctx = replyTo ctx.update.message (usageMaxText cmd cc))
    ∧ (minViolated cc ctx.args = false → maxViolated cc ctx.args = false →
      r.middleware ctx = [CRAction.invoked cc.handlerTag cmd ctx.args ctx.botUsername]) := by
  refine ⟨fun hmin => ?_, fun hmin hmax => ?_, fun hmin hmax => ?_⟩
  · simp [CommandRouter.middleware, hc, hne, hh, hfind, hmin]
  · simp [CommandRouter.middleware, hc, hne, hh, hfind, hmin, hmax]
  · simp [CommandRouter.middleware, hc, hne, hh, hfind, hmin, hmax]

theorem command_arity_enforcement_witness :
    CommandRouter.middleware c6wr c6wctx =
      [CRAction.sent 5 "Command /go requires at least 2 arguments."] :=
  ((command_arity_enforcement c6wr c6wctx "go" c6wcfg rfl (by decide) (by decide)
      (by decide)).1 (by decide)).trans (by decide)

/-- C7 counterexample: one command ("ping", description "d") is registered
with alias "p"; generateHelp emits the command's line once per registered
name, so the help text contains the line twice rather than once per
command. -/
theorem help_alias_duplication_counterexample :
    c7cr.generateHelp = "/ping - d\n/ping - d"
    ∧ c7cr.generateHelp ≠ "/ping - d"
    ∧ ((c7cr.commandMap.map Prod.snd).filter fun c =>
        decide (c.description.getD "" ≠ "")).map CommandConfig.command = ["ping", "ping"] := by
  refine ⟨by decide, by decide, by decide⟩

/-- C7 amended: invoking the configured help command (when the update's
message field is present) replies with the generated help text and stops
without dispatching to any command handler, a handler registered under the
help name included; the help text is one line "/<command> - <description>"
per registered name (aliases included) whose config has a nonempty
description, joined by newlines, with a fixed fallback when that joined
text is empty. -/
theorem help_generation (r : CommandRouter) (ctx : Ctx) (m : Message)
    (hc : ctx.command = some r.helpCommand) (hne : r.helpCommand ≠ "")
    (hm : ctx.update.message = some m) :
    r.middleware ctx = [CRAction.sent m.chat_id r.generateHelp]
    ∧ (String.intercalate "\n" (((r.commandMap.map Prod.snd).filter
          fun c => decide (c.description.getD "" ≠ "")).map
          fun c => "/" ++ c.command ++ " - " ++ c.description.getD "") ≠ "" →
        r.generateHelp = String.intercalate "\n" (((r.commandMap.map Prod.snd).filter
          fun c => decide (c.description.getD "" ≠ "")).map
          fun c => "/" ++ c.command ++ " - " ++ c.description.getD ""))
    ∧ (((r.commandMap.map Prod.snd).filter fun c => decide (c.description.getD "" ≠ "")) = [] →
        r.generateHelp = "No commands available.") := by
  refine ⟨?_, fun hjoin => ?_, fun hempty => ?_⟩
  · simp [CommandRouter.middleware, hc, hne, replyTo, hm]
  · show (if _ = "" then _ else _) = _
    rw [if_neg hjoin]
  · simp only [CommandRouter.generateHelp, hempty, List.map_nil]
    rfl

theorem help_generation_witness :
    CommandRouter.middleware c7wr c7wctx = [CRAction.sent 5 "/start - Start the bot"]
    ∧ CommandRouter.generateHelp c7wr = "/start - Start the bot" :=
  ⟨((help_generation c7wr c7wctx ⟨5, some "/help"⟩ rfl (by decide) rfl).1).trans (by decide),
   ((help_generation c7wr c7wctx ⟨5, some "/help"⟩ rfl (by decide) rfl).2.1
      (by decide)).trans (by decide)⟩

/-- C8 counterexample: the claim's whitespace-splitting reading fails on a
command text containing a tab: the code splits on the space character only,
so the parsed command keeps the tab and the following word, while the
claimed whitespace split would yield the bare command name. -/
theorem commandParser_whitespace_counterexample : ¬ specSplitClaim := by
  intro h
  exact absurd (h c8cu c8cm "/cmd\targ" rfl rfl (by decide)).1 (by decide)

/-- C8 amended: for a message (or business message) text beginning with the
command marker, the parser splits the text on the space character only
(consecutive spaces yield empty-string arguments and other whitespace is
not a separator), strips the leading "/" from the first token, splits that
token on "@" into the command name and an optional bot-username suffix, and
stores command, args (the remaining space-separated tokens, verbatim) and
botUsername in the context. -/
theorem commandParser_space_split (ctx : Ctx) (m : Message) (t : String)
    (hm : ctx.update.message = some m
        ∨ (ctx.update.message = none ∧ ctx.update.business_message = some m))
    (ht : m.text = some t) (hs : hasCommandMarker t = true) :
    (commandParser ctx).command
        = some ((splitChar '@' (dropMarker ((splitChar ' ' t).headD ""))).headD "")
    ∧ (commandParser ctx).args = some (splitChar ' ' t).tail
    ∧ (commandParser ctx).botUsername
        = (splitChar '@' (dropMarker ((splitChar ' ' t).headD "")))[1]? := by
  cases hm with
  | inl h => simp [commandParser, h, ht, hs]
  | inr h => simp [commandParser, h.1, h.2, ht, hs]

theorem commandParser_space_split_witness :
    (commandParser c8wctx).command = some "start"
    ∧ (commandParser c8wctx).args = some ["one", "two"]
    ∧ (commandParser c8wctx).botUsername = some "mybot" :=
  ⟨((commandParser_space_split c8wctx ⟨5, some "/start@mybot one two"⟩ "/start@mybot one two"
      (Or.inl rfl) rfl (by decide)).1).trans (by decide),
   ((commandParser_space_split c8wctx ⟨5, some "/start@mybot one two"⟩ "/start@mybot one two"
      (Or.inl rfl) rfl (by decide)).2.1).trans (by decide),
   ((commandParser_space_split c8wctx ⟨5, some "/start@mybot one two"⟩ "/start@mybot one two"
      (Or.inl rfl) rfl (by decide)).2.2).trans (by decide)⟩

/-- C10: every reply the command router itself generates is guarded by the
presence of the update's message field, so for business-message commands it
sends nothing on those branches; a matched command with passing arity
checks still gets its handler invoked; and the command parser does
recognize commands carried by a business message. -/
theorem router_replies_require_message :
    (∀ (r : CommandRouter) (ctx : Ctx), ctx.update.message = none →
      noSends (r.middleware ctx) = true)
    ∧ (∀ (r : CommandRouter) (ctx : Ctx) (cmd : String) (cc : CommandConfig),
        ctx.command = some cmd → cmd ≠ "" → cmd ≠ r.helpCommand →
        mapGet r.commandMap cmd = some cc →
        minViolated cc ctx.args = false → maxViolated cc ctx.args = false →
        r.middleware ctx = [CRAction.invoked cc.handlerTag cmd ctx.args ctx.botUsername])
    ∧ (∀ (u : Update) (bm : Message) (t : String), u.message = none →
        u.business_message = some bm → bm.text = some t → hasCommandMarker t = true →
        (commandParser ⟨u, none, none, none⟩).command.isSome = true) := by
  refine ⟨fun r ctx hm => ?_, fun r ctx cmd cc hc hne hh hfind hmin hmax => ?_,
    fun u bm t hm hb ht hs => ?_⟩
  · simp only [CommandRouter.middleware, hm, replyTo]
    split
    · split <;> rfl
    · split
      · rfl
      · split
        · split
          · rfl
          · split
            · rfl
            · rfl
        · split <;> rfl
  · simp [CommandRouter.middleware, hc, hne, hh, hfind, hmin, hmax]
  · simp [commandParser, hm, hb, ht, hs]

theorem router_replies_require_message_witness :
    noSends (CommandRouter.middleware c10wr c10wctx) = true
    ∧ CommandRouter.middleware c10wr c10wctx2 = [CRAction.invoked 2 "hi" (some []) none]
    ∧ (commandParser ⟨c10bu, none, none, none⟩).command.isSome = true :=
  ⟨router_replies_require_message.1 c10wr c10wctx rfl,
   (router_replies_require_message.2.1 c10wr c10wctx2 "hi" c10wcfg rfl (by decide) (by decide)
      (by decide) (by decide) (by decide)).trans (by decide),
   router_replies_require_message.2.2 c10bu ⟨7, some "/nope"⟩ "/nope" rfl rfl rfl (by decide)⟩
